import Mathlib

deriving instance DecidableEq for Except

/-!
Shallow embedding of the cricket-feedback-system AI service
(`ai-service/` in the repository): the payment-screenshot parsing
pipeline, its guardrails, image validation, date validation, the
Google AI Studio provider adapter with its multi-model fallback loop,
and the response envelope schema.

Python values flowing through JSON-shaped dicts are modelled by the
inductive `JVal`; Python floats by `Rat` (the service only ever
manipulates decimal literals and comparisons, no float-rounding
behaviour is relied upon by the code under scrutiny); Python
exceptions by `Except PyErr`.  External capabilities (the network
generation call, `json.loads`, `base64.b64decode`, PIL image
inspection, `hashlib`, `dateutil`'s fuzzy parser, the current date)
are parameters collected in `Env`, exactly the boundary the service's
own code treats as external libraries.
-/

/-- Python exceptions that the modelled code can raise or propagate. -/
inductive PyErr where
  | valueError (msg : String)
  | typeError (msg : String)
  | attributeError (msg : String)
  | unboundLocalError (name : String)
  | validationError (msg : String)
deriving DecidableEq, Repr

/-- `str(e)` of a modelled exception, used when formatting error messages. -/
def PyErr.msg : PyErr → String
  | .valueError m => m
  | .typeError m => m
  | .attributeError m => m
  | .unboundLocalError n => "cannot access local variable " ++ n
  | .validationError m => m

/-- JSON-shaped Python values (the dicts passed between the provider
adapter and the orchestrator). -/
inductive JVal where
  | null
  | bool (b : Bool)
  | num (q : Rat)
  | str (s : String)
  | arr (xs : List JVal)
  | obj (fields : List (String × JVal))

/-- Python truthiness of a `JVal` (`if value:`). -/
def JVal.truthy : JVal → Bool
  | .null => false
  | .bool b => b
  | .num q => q != 0
  | .str s => s != ""
  | .arr xs => !xs.isEmpty
  | .obj fs => !fs.isEmpty

/-- Python `str.strip()`: drop whitespace from both ends
(structural implementation over the character list, so that the
kernel can evaluate it; Lean's own `String.trim` is
substring-based and does not reduce). -/
def pyStrip (s : String) : String :=
  ⟨((s.toList.dropWhile Char.isWhitespace).reverse.dropWhile Char.isWhitespace).reverse⟩

/-- Python `str.split(sep)` for a one-character separator: split on
every occurrence, preserving empty pieces. -/
def pySplit (s : String) (sep : Char) : List String :=
  (s.toList.splitOn sep).map String.mk

/-- Python `s.startswith(t)` (structural). -/
def pyStartsWith (s t : String) : Bool :=
  s.toList.take t.length == t.toList

/-- Python `s.endswith(t)` (structural). -/
def pyEndsWith (s t : String) : Bool :=
  s.toList.reverse.take t.length == t.toList.reverse

/-- Python `s[:-n]` (structural). -/
def pyDropRight (s : String) (n : Nat) : String :=
  ⟨(s.toList.reverse.drop n).reverse⟩

/-- Python `str.lower()` (ASCII, structural). -/
def pyLower (s : String) : String := ⟨s.toList.map Char.toLower⟩

/-- Python `str.upper()` (ASCII, structural). -/
def pyUpper (s : String) : String := ⟨s.toList.map Char.toUpper⟩

/-- Model of CPython `float(str)` for plain decimal literals: optional
sign, digits with an optional single decimal point.  (Exponent, inf
and nan forms are outside the subset the service's data ever uses; a
string outside this grammar makes `float` raise, which is the
behaviour under scrutiny.) -/
def strToRat? (s : String) : Option Rat :=
  let cs := (pyStrip s).toList
  let (neg, u) :=
    match cs with
    | '-' :: rest => (true, rest)
    | '+' :: rest => (false, rest)
    | _ => (false, cs)
  let digitsVal (ds : List Char) : Nat :=
    ds.foldl (fun acc c => acc * 10 + (c.toNat - 48)) 0
  let allDigits (ds : List Char) : Bool := ds.all Char.isDigit
  match u.splitOn '.' with
  | [intp] =>
      if intp.isEmpty || !allDigits intp then none
      else
        let v : Rat := mkRat (digitsVal intp) 1
        some (if neg then -v else v)
  | [intp, frac] =>
      if (intp.isEmpty && frac.isEmpty) || !allDigits intp || !allDigits frac then none
      else
        let v : Rat := mkRat (digitsVal intp * 10 ^ frac.length + digitsVal frac)
          (10 ^ frac.length)
        some (if neg then -v else v)
  | _ => none

/-- Model of CPython `float(x)` on a JSON-derived value: numbers pass
through, bools coerce to 0/1, numeric strings parse, everything else
raises (`ValueError` for strings, `TypeError` otherwise). -/
def pyFloat : JVal → Except PyErr Rat
  | .num q => .ok q
  | .bool b => .ok (if b then 1 else 0)
  | .str s =>
      match strToRat? s with
      | some q => .ok q
      | none => .error (.valueError ("could not convert string to float: " ++ s))
  | .null => .error (.typeError "float() argument must be a string or a real number, not NoneType")
  | .arr _ => .error (.typeError "float() argument must be a string or a real number, not list")
  | .obj _ => .error (.typeError "float() argument must be a string or a real number, not dict")

/-- Model of CPython `str(x)` on a JSON-derived value; never raises.
(The rendering of lists/dicts/numbers is abstracted: the service never
compares those renderings, it only forwards them.) -/
def JVal.pyStr : JVal → String
  | .null => "None"
  | .bool b => if b then "True" else "False"
  | .num q => toString q
  | .str s => s
  | .arr _ => "<list>"
  | .obj _ => "<dict>"

/-- Python `dict.get(key, default)` on a dict modelled as an
association list with distinct keys (the service only builds such
dicts literally). -/
def dget (d : List (String × JVal)) (k : String) (dflt : JVal) : JVal :=
  match d.lookup k with
  | some v => v
  | none => dflt

/-- Python `key in dict`. -/
def dictContains (d : List (String × JVal)) (k : String) : Bool :=
  (d.lookup k).isSome

/-- Python `value.get(key, default)` on an arbitrary JSON-decoded
value: only dicts have a `.get` attribute; `json.loads` results that
are lists/scalars raise `AttributeError`.  JSON objects with duplicate
keys are modelled post-deduplication (CPython keeps the last binding),
so `lookup` on the association list is the dict lookup. -/
def jsonGet : JVal → String → JVal → Except PyErr JVal
  | .obj fs, k, dflt => .ok (dget fs k dflt)
  | _, _, _ => .error (.attributeError "object has no attribute get")

/-!  ## Configuration and cost guardrails (`config.py`)  -/

/-- Injectable configuration values (`config.py` module constants).
Defaults in the source: enabled, daily limit 500, threshold 0.7. -/
structure Config where
  aiServiceEnabled : Bool
  dailyRequestLimit : Nat
  minConfidenceThreshold : Rat
deriving DecidableEq, Repr

/-- `ALLOWED_FREE_MODELS` from `config.py`, in source order (the
source writes a `set` literal; one entry is repeated there and set
membership is what the code consults, which list membership models). -/
def ALLOWED_FREE_MODELS : List String :=
  [ "gemini-1.5-flash",
    "gemini-1.5-flash-latest",
    "gemini-1.5-pro",
    "gemini-1.5-pro-latest",
    "gemini-pro",
    "gemini-pro-vision",
    "gemini-1.5-flash-8b",
    "gemini-2.0-flash-exp",
    "gemini-2.0-flash",
    "gemini-2.0-flash-lite",
    "gemma-3-27b-it",
    "google/gemma-3-27b-it:free",
    "google/gemma-2-9b-it:free",
    "meta-llama/llama-3.2-11b-vision-instruct:free",
    "meta-llama/llama-3.2-90b-vision-instruct:free" ]

/-- `is_model_allowed` (`config.py`): membership in the free whitelist. -/
def is_model_allowed (model_id : String) : Bool :=
  ALLOWED_FREE_MODELS.contains model_id

/-- `_request_counter` (`config.py`): the process-wide daily quota
state, `{"date": ..., "count": ...}`. -/
structure QuotaState where
  date : String
  count : Nat
deriving DecidableEq, Repr

/-- `get_request_count` (`config.py`): current count with lazy reset on
date rollover.  The source also writes the reset back to the shared
dict; that write is observationally equivalent for every later read or
increment (both re-apply the same normalization), so the read is
modelled purely. -/
def get_request_count (today : String) (q : QuotaState) : Nat :=
  if q.date != today then 0 else q.count

/-- `increment_request_count` (`config.py`): lazy reset, then increment. -/
def increment_request_count (today : String) (q : QuotaState) : QuotaState :=
  if q.date != today then { date := today, count := 1 }
  else { q with count := q.count + 1 }

/-- `is_within_daily_limit` (`config.py`). -/
def is_within_daily_limit (cfg : Config) (today : String) (q : QuotaState) : Bool :=
  get_request_count today q < cfg.dailyRequestLimit

/-- `should_block_request` (`config.py`) on the call shape the
orchestrator uses (`response_headers=None`, so the billing-indicator
scan at the end of the source function is skipped). -/
def should_block_request (cfg : Config) (today : String) (q : QuotaState)
    (model_id : String) : Bool × Option String :=
  if !cfg.aiServiceEnabled then (true, some "service_disabled")
  else if !is_model_allowed model_id then (true, some "model_not_free")
  else if !is_within_daily_limit cfg today q then (true, some "daily_limit_exceeded")
  else (false, none)

/-!  ## Date validation (`services/date_validator.py`)  -/

/-- A `datetime.date`: calendar comparison is lexicographic on
(year, month, day). -/
structure PyDate where
  year : Nat
  month : Nat
  day : Nat
deriving DecidableEq, Repr

/-- Python `date.__lt__`. -/
def PyDate.lt (a b : PyDate) : Bool :=
  (a.year < b.year) ||
  (a.year == b.year && a.month < b.month) ||
  (a.year == b.year && a.month == b.month && a.day < b.day)

/-- Gregorian leap year, as `calendar`/`datetime` define it. -/
def isLeapYear (y : Nat) : Bool :=
  y % 4 == 0 && (y % 100 != 0 || y % 400 == 0)

/-- Days in a month, for `datetime.strptime` validity checking. -/
def daysInMonth (y m : Nat) : Nat :=
  if m == 2 then (if isLeapYear y then 29 else 28)
  else if m == 4 || m == 6 || m == 9 || m == 11 then 30
  else 31

/-- Two-digit / four-digit decimal field of a character list. -/
def digitsToNat? (cs : List Char) : Option Nat :=
  if cs.isEmpty || !cs.all Char.isDigit then none
  else some (cs.foldl (fun acc c => acc * 10 + (c.toNat - 48)) 0)

/-- Model of `datetime.strptime(s, "%Y-%m-%d").date()` on a 10-character
string with dashes at positions 4 and 7 (the only shape the caller
feeds it): four-digit year ≥ 1, two-digit month 1..12, two-digit day
valid for the month; `none` models the `ValueError` the caller catches. -/
def strptimeYMD (s : String) : Option PyDate :=
  let cs := s.toList
  match digitsToNat? (cs.take 4), digitsToNat? ((cs.drop 5).take 2),
        digitsToNat? ((cs.drop 8).take 2) with
  | some y, some m, some d =>
      if 1 ≤ y && 1 ≤ m && m ≤ 12 && 1 ≤ d && d ≤ daysInMonth y m then
        some ⟨y, m, d⟩
      else none
  | _, _, _ => none

/-- `DateValidator.parse_date` (`services/date_validator.py`).
`fuzzy` is `dateutil.parser.parse(_, fuzzy=True).date()` with its
exceptions mapped to `none` — an external library capability.  A
string of the strict ISO shape is handled by `strptime` directly and
never reaches the fuzzy parser (a `strptime` failure is caught by the
function's `except` and returns `None`, it does not fall through). -/
def parse_date (fuzzy : String → Option PyDate) (date_string : String) :
    Option PyDate :=
  if date_string == "" then none
  else if date_string.length == 10 && date_string.toList.getD 4 ' ' == '-' &&
      date_string.toList.getD 7 ' ' == '-' then
    strptimeYMD date_string
  else fuzzy date_string

/-- `DateValidator.validate_payment_date` (`services/date_validator.py`):
empty or unparseable inputs defer with `(True, None)`; when both
parse, invalid exactly when `payment_date < match_date`, with reason
`"date_mismatch"`. -/
def validate_payment_date (fuzzy : String → Option PyDate)
    (payment_date_str match_date_str : String) : Bool × Option String :=
  if payment_date_str == "" then (true, none)
  else if match_date_str == "" then (true, none)
  else
    match parse_date fuzzy payment_date_str, parse_date fuzzy match_date_str with
    | none, _ => (true, none)
    | some _, none => (true, none)
    | some payment_date, some match_date =>
        if payment_date.lt match_date then (false, some "date_mismatch")
        else (true, none)

/-!  ## External capabilities (`Env`) and image utilities  -/

/-- What PIL reports about a decodable image (`Image.open`): container
format name and pixel dimensions. -/
structure ImageInfo where
  format : String
  width : Nat
  height : Nat
deriving DecidableEq, Repr

/-- External capabilities of the service, exactly the libraries the
source treats as black boxes: `base64.b64decode` (raising modelled as
`Except.error` with the exception text), PIL `Image.open` over decoded
bytes, `hashlib.sha256(...).hexdigest()`, the per-model generation
call `_generate_content_with_model` (network + SDK, returns response
text or raises), `json.loads` (returning the decoded value or a
`JSONDecodeError` message), `dateutil`'s fuzzy date parse, and
`date.today().isoformat()`.  Bytes are modelled as `List Nat`. -/
structure Env where
  b64decode : String → Except String (List Nat)
  inspectImage : List Nat → Except String ImageInfo
  sha256hex : List Nat → String
  gen : String → Except String String
  jsonLoads : String → Except String JVal
  fuzzy : String → Option PyDate
  today : String

/-- The data-URL stripping idiom shared by `generate_image_hash`,
`ImageValidator.validate` and `parse_payment_image`:
`if "," in s: s = s.split(",")[1]`. -/
def stripDataUrl (s : String) : String :=
  if s.toList.contains ',' then (pySplit s ',').getD 1 "" else s

/-- `generate_image_hash` (`utils/image_utils.py`): strip data-URL
prefix, base64-decode (propagating the decode exception), hash. -/
def generate_image_hash (env : Env) (image_base64 : String) :
    Except String (String × List Nat) :=
  match env.b64decode (stripDataUrl image_base64) with
  | .error e => .error e
  | .ok image_bytes => .ok (env.sha256hex image_bytes, image_bytes)

/-- `ImageValidator.SUPPORTED_FORMATS`. -/
def SUPPORTED_FORMATS : List String := ["JPEG", "PNG", "GIF", "WEBP"]

/-- `ImageValidator.validate` (`services/image_validator.py`): strip
data-URL prefix; base64-decode (failure → invalid); reject when the
decoded byte length exceeds 10 MiB, *before* opening the image with
PIL; open with PIL (failure → invalid); require a supported format and
dimensions within [100, 4096]² (the aspect-ratio check only logs and
never fails).  Every internal exception is caught, so the function is
total and returns `(is_valid, error_message)`. -/
def ImageValidator.validate (env : Env) (image_base64 : String) :
    Bool × Option String :=
  match env.b64decode (stripDataUrl image_base64) with
  | .error e => (false, some ("Invalid base64 encoding: " ++ e))
  | .ok image_bytes =>
      let size_mb : Rat := mkRat (image_bytes.length : Int) (1024 * 1024)
      if size_mb > 10 then
        (false, some "Image too large (max 10MB)")
      else
        match env.inspectImage image_bytes with
        | .error e => (false, some ("Cannot open image: " ++ e))
        | .ok info =>
            if !SUPPORTED_FORMATS.contains info.format then
              (false, some ("Unsupported format: " ++ info.format))
            else if info.width < 100 || info.height < 100 then
              (false, some "Image too small")
            else if info.width > 4096 || info.height > 4096 then
              (false, some "Image dimensions too large")
            else (true, none)

/-!  ## Provider adapter (`providers/google_ai_studio.py`)  -/

/-- `GoogleAIStudioProvider.DEFAULT_MODEL`. -/
def DEFAULT_MODEL : String := "gemma-3-27b-it"

/-- The fixed fallback list inside `parse_payment_image`. -/
def fallbacks : List String :=
  [ "gemma-3-27b-it",
    "gemini-2.0-flash-exp",
    "gemini-2.0-flash",
    "gemini-2.0-flash-lite",
    "gemini-1.5-flash",
    "gemini-1.5-pro" ]

/-- `models_to_try`: the requested model followed by the fallbacks,
deduplicated preserving first occurrence. -/
def modelsToTry (requested : String) : List String :=
  fallbacks.foldl (fun acc fb => if acc.contains fb then acc else acc ++ [fb])
    [requested]

/-- `_parse_ai_response`'s markdown-fence stripping: trim; if the text
starts with a fence, drop the first line; if it ends with a fence,
drop the last three characters; trim again. -/
def stripFences (response_text : String) : String :=
  let text := pyStrip response_text
  let text :=
    if pyStartsWith text "```" then
      String.intercalate "\n" ((pySplit text '\n').drop 1)
    else text
  let text := if pyEndsWith text "```" then pyDropRight text 3 else text
  pyStrip text

/-- `GoogleAIStudioProvider._parse_ai_response`
(`providers/google_ai_studio.py`): strip fences, `json.loads`; a
`JSONDecodeError` is converted into a returned error dict carrying the
raw text; on a successful parse, build the normalized dict in source
order.  `float(...)` on the `confidence` and `amount` fields and
`.get` on a non-dict decode result can raise, and those exceptions
are *not* caught here (only `json.JSONDecodeError` is). -/
def parseAiResponse (jsonLoads : String → Except String JVal)
    (response_text : String) : Except PyErr (List (String × JVal)) := do
  let text := stripFences response_text
  match jsonLoads text with
  | .error e =>
      .ok [ ("error", .str ("JSON parse error: " ++ e)),
            ("is_payment_screenshot", .bool false),
            ("confidence", .num 0),
            ("raw_response", .str response_text) ]
  | .ok data => do
      let v_isps ← jsonGet data "is_payment_screenshot" (.bool false)
      let v_conf ← jsonGet data "confidence" (.num 0) >>= pyFloat
      let v_amount ← jsonGet data "amount" (.num 0) >>= pyFloat
      let v_currency ← jsonGet data "currency" (.str "INR")
      let v_payer ← jsonGet data "payer_name" (.str "")
      let v_payee ← jsonGet data "payee_name" (.str "")
      let v_date ← jsonGet data "date" (.str "")
      let v_time ← jsonGet data "time" (.str "")
      let v_status ← jsonGet data "transaction_status" (.str "unknown")
      let v_txid ← jsonGet data "transaction_id" (.str "")
      let v_method ← jsonGet data "payment_method" (.str "unknown")
      let v_upi ← jsonGet data "upi_id" (.str "")
      let v_detected ← jsonGet data "detected_type" (.str "")
      .ok [ ("is_payment_screenshot", v_isps),
            ("confidence", .num v_conf),
            ("amount", .num v_amount),
            ("currency", .str v_currency.pyStr),
            ("payer_name", .str v_payer.pyStr),
            ("payee_name", .str v_payee.pyStr),
            ("date", .str v_date.pyStr),
            ("time", .str v_time.pyStr),
            ("transaction_status", .str v_status.pyStr),
            ("transaction_id", .str v_txid.pyStr),
            ("payment_method", .str v_method.pyStr),
            ("upi_id", .str v_upi.pyStr),
            ("detected_type", v_detected),
            ("raw_response", .str response_text) ]

/-- Result of the adapter's fallback loop: the returned dict, the
adapter's `_model_id` after the call, plus two ghost observations used
only in theorem statements (not state the source keeps): the ordered
list of model ids actually sent a generation request, and the id of
the candidate whose answer was returned, when one was. -/
structure LoopResult where
  dict : List (String × JVal)
  modelId : String
  attempts : List String
  answeredBy : Option String

/-- The error dict `parse_payment_image` returns when every candidate
failed. -/
def allModelsFailedDict (last_error : Option String) : List (String × JVal) :=
  [ ("error", .str ("All models failed. Last error: " ++
        (match last_error with | some e => e | none => "None"))),
    ("is_payment_screenshot", .bool false),
    ("confidence", .num 0) ]

/-- The `for model_id in models_to_try` loop of
`GoogleAIStudioProvider.parse_payment_image`: skip candidates not in
the whitelist; otherwise set `_model_id` to the candidate, issue the
generation request, and parse the response; *any* exception inside the
loop body (network failure or a `_parse_ai_response` raise) is caught,
recorded as `last_error`, and the loop continues. -/
def tryModels (env : Env) :
    List String → String → Option String → List String → LoopResult
  | [], mid, last_error, attempts =>
      ⟨allModelsFailedDict last_error, mid, attempts.reverse, none⟩
  | model_id :: rest, mid, last_error, attempts =>
      if !is_model_allowed model_id then
        tryModels env rest mid last_error attempts
      else
        match env.gen model_id with
        | .error e => tryModels env rest model_id (some e) (model_id :: attempts)
        | .ok response =>
            match parseAiResponse env.jsonLoads response with
            | .ok d => ⟨d, model_id, (model_id :: attempts).reverse, some model_id⟩
            | .error e =>
                tryModels env rest model_id (some e.msg) (model_id :: attempts)

/-- `GoogleAIStudioProvider.parse_payment_image`
(`providers/google_ai_studio.py`): prepare the image (strip data-URL
prefix and base64-decode; a failure here returns an error dict without
touching any model — the mime-type sniff over the decoded bytes only
shapes the request payload, which the `gen` capability absorbs), then
run the fallback loop over the deduplicated candidate list.  `st` is
the adapter's `_model_id` at entry.  Never raises. -/
def parse_payment_image (env : Env) (st : String) (image_base64 : String) :
    LoopResult :=
  match env.b64decode (stripDataUrl image_base64) with
  | .error e =>
      ⟨[ ("error", .str ("Image preparation failed: " ++ e)),
         ("is_payment_screenshot", .bool false),
         ("confidence", .num 0) ], st, [], none⟩
  | .ok _image_bytes =>
      tryModels env (modelsToTry st) st none []

/-!  ## Response schema (`models/schemas.py`)  -/

/-- `PaymentData` (`models/schemas.py`): one field per schema field.
The `Literal` constraints on `transaction_status` / `payment_method`
are established by the normalizers before construction. -/
structure PaymentData where
  amount : Rat
  currency : String
  payer_name : String
  payee_name : String
  date : String
  time : String
  transaction_status : String
  transaction_id : String
  payment_method : String
  upi_id : String
deriving DecidableEq, Repr

/-- `PaymentData()` with all schema defaults. -/
def PaymentData.default : PaymentData :=
  ⟨0, "INR", "", "", "", "", "unknown", "", "unknown", ""⟩

/-- `ResponseMetadata` (`models/schemas.py`). -/
structure ResponseMetadata where
  confidence : Rat
  is_payment_screenshot : Bool
  processing_time_ms : Int
  provider : String
  model : String
  model_cost_tier : String
  image_hash : String
  requires_review : Bool
  review_reason : Option String
deriving DecidableEq, Repr

/-- The closed `Literal` enumeration pydantic allows for
`review_reason`. -/
def validReviewReason : Option String → Bool
  | none => true
  | some r =>
      ["low_confidence", "date_mismatch", "ai_uncertain",
       "not_payment_screenshot", "validation_failed", "service_error",
       "service_disabled", "daily_limit_exceeded", "model_not_free"].contains r

/-- Pydantic-validated construction of `ResponseMetadata`: the
`confidence` field carries `ge=0.0, le=1.0`, and `review_reason` must
be in its `Literal` enumeration; a violation raises a
`ValidationError`.  (The remaining fields either carry no constraint
or are only ever constructed from compile-time members of their
enumerations.) -/
def mkResponseMetadata (confidence : Rat) (is_payment_screenshot : Bool)
    (processing_time_ms : Int) (provider model model_cost_tier image_hash : String)
    (requires_review : Bool) (review_reason : Option String) :
    Except PyErr ResponseMetadata :=
  if confidence < 0 || confidence > 1 then
    .error (.validationError "confidence: input should be less than or equal to 1 and greater than or equal to 0")
  else if !validReviewReason review_reason then
    .error (.validationError "review_reason: input should be a valid literal")
  else
    .ok ⟨confidence, is_payment_screenshot, processing_time_ms, provider, model,
         model_cost_tier, image_hash, requires_review, review_reason⟩

/-- `ParsePaymentResponse` (`models/schemas.py`): the envelope. -/
structure ParsePaymentResponse where
  success : Bool
  error_code : Option String
  error_message : Option String
  data : PaymentData
  metadata : ResponseMetadata
deriving DecidableEq, Repr

/-!  ## Orchestrator (`services/payment_parser.py`)  -/

/-- `error_to_review_reason` (`PaymentParserService._error_response`). -/
def errorToReviewReason : List (String × String) :=
  [ ("ai_failed", "ai_uncertain"),
    ("invalid_image", "validation_failed"),
    ("payment_date_invalid", "date_mismatch"),
    ("not_payment_screenshot", "not_payment_screenshot"),
    ("validation_failed", "validation_failed"),
    ("service_error", "service_error"),
    ("service_disabled", "service_disabled"),
    ("daily_limit_exceeded", "service_disabled"),
    ("model_not_free", "service_disabled") ]

/-- `PaymentParserService._error_response`: map the error code to a
valid review reason (default `"service_error"`), then build the
envelope with zeroed data, `requires_review=True`.  Elapsed-time
metadata is abstracted to 0 (wall-clock, no claim concerns it).
Construction goes through the validated metadata constructor; an
(unreachable for the codes the service uses) validation failure would
propagate. -/
def errorResponse (error_code error_message provider model model_cost_tier
    image_hash : String) : Except PyErr ParsePaymentResponse :=
  let review_reason := (errorToReviewReason.lookup error_code).getD "service_error"
  match mkResponseMetadata 0 false 0 provider model model_cost_tier image_hash
      true (some review_reason) with
  | .error e => .error e
  | .ok md =>
      .ok { success := false, error_code := some error_code,
            error_message := some error_message, data := PaymentData.default,
            metadata := md }

/-- `PaymentParserService._normalize_status` on the raw dict value:
falsy → `"unknown"`; a truthy non-string raises `AttributeError`
(`.lower()`); otherwise lower-case, strip, and bucket. -/
def normalizeStatus (status : JVal) : Except PyErr String :=
  if !status.truthy then .ok "unknown"
  else
    match status with
    | .str s =>
        let status_lower := pyStrip (pyLower s)
        if ["completed", "success", "successful", "done"].contains status_lower then
          .ok "completed"
        else if ["failed", "failure", "rejected"].contains status_lower then
          .ok "failed"
        else if ["pending", "processing", "in progress"].contains status_lower then
          .ok "pending"
        else .ok "unknown"
    | _ => .error (.attributeError "object has no attribute lower")

/-- `PaymentParserService._normalize_payment_method`, same shape. -/
def normalizePaymentMethod (method : JVal) : Except PyErr String :=
  if !method.truthy then .ok "unknown"
  else
    match method with
    | .str s =>
        let method_upper := pyStrip (pyUpper s)
        if ["UPI", "BHIM", "GPAY", "PHONEPE", "PAYTM"].contains method_upper then
          .ok "UPI"
        else if method_upper == "NEFT" then .ok "NEFT"
        else if method_upper == "IMPS" then .ok "IMPS"
        else .ok "unknown"
    | _ => .error (.attributeError "object has no attribute upper")

/-- Steps 9–11 of `parse_payment_screenshot`: the post-success review
triggers, evaluated in source order.  The amount check sets
`review_reason` unconditionally; the date check, when it fires,
*overwrites* whatever reason is already set; only the confidence check
guards against overwriting (`if not review_reason`). -/
def computeReviewFlags (fuzzy : String → Option PyDate) (threshold : Rat)
    (payment_data : PaymentData) (match_date : Option String)
    (confidence : Rat) : Bool × Option String :=
  let rr0 : Bool × Option String := (false, none)
  let rr1 :=
    if payment_data.amount ≤ 0 then (true, some "validation_failed") else rr0
  let rr2 :=
    match match_date with
    | some md =>
        if md != "" && payment_data.date != "" then
          let dv := validate_payment_date fuzzy payment_data.date md
          if !dv.1 then (true, dv.2) else rr1
        else rr1
    | none => rr1
  if confidence < threshold then
    (true, if rr2.2 = none then some "low_confidence" else rr2.2)
  else rr2

/-- Steps 6–12 of `parse_payment_screenshot` (`services/payment_parser.py`):
given the dict the provider returned, check the `error` key, classify
non-payment screenshots, build `PaymentData` via the Python `float`/
`str` coercions and the normalizers (each can raise), evaluate the
review triggers, and construct the success envelope through the
validated metadata constructor.  Raised exceptions surface as
`Except.error` for the orchestrator's handler. -/
def processAiResult (cfg : Config) (env : Env)
    (provider_name model_id model_cost_tier image_hash : String)
    (match_date : Option String) (ai_result : List (String × JVal)) :
    Except PyErr ParsePaymentResponse :=
  if dictContains ai_result "error" && (dget ai_result "error" .null).truthy then
    errorResponse "ai_failed"
      ("AI processing failed: " ++ (dget ai_result "error" .null).pyStr)
      provider_name model_id model_cost_tier image_hash
  else if !(dget ai_result "is_payment_screenshot" (.bool false)).truthy then
    let detected_type := (dget ai_result "detected_type" (.str "unknown")).pyStr
    match mkResponseMetadata 0 false 0 provider_name model_id model_cost_tier
        image_hash true (some "not_payment_screenshot") with
    | .error e => .error e
    | .ok md =>
        .ok { success := false, error_code := some "not_payment_screenshot",
              error_message :=
                some ("Image is not a payment screenshot. Detected: " ++ detected_type),
              data := PaymentData.default, metadata := md }
  else
    match pyFloat (dget ai_result "amount" (.num 0)) with
    | .error e => .error e
    | .ok amount =>
    match normalizeStatus (dget ai_result "transaction_status" .null) with
    | .error e => .error e
    | .ok transaction_status =>
    match normalizePaymentMethod (dget ai_result "payment_method" .null) with
    | .error e => .error e
    | .ok payment_method =>
    let payment_data : PaymentData :=
      { amount,
        currency := (dget ai_result "currency" (.str "INR")).pyStr,
        payer_name := (dget ai_result "payer_name" (.str "")).pyStr,
        payee_name := (dget ai_result "payee_name" (.str "")).pyStr,
        date := (dget ai_result "date" (.str "")).pyStr,
        time := (dget ai_result "time" (.str "")).pyStr,
        transaction_status,
        transaction_id := (dget ai_result "transaction_id" (.str "")).pyStr,
        payment_method,
        upi_id := (dget ai_result "upi_id" (.str "")).pyStr }
    match pyFloat (dget ai_result "confidence" (.num 0)) with
    | .error e => .error e
    | .ok confidence =>
    let flags := computeReviewFlags env.fuzzy cfg.minConfidenceThreshold
      payment_data match_date confidence
    match mkResponseMetadata confidence true 0 provider_name model_id
        model_cost_tier image_hash flags.1 flags.2 with
    | .error e => .error e
    | .ok md =>
        .ok { success := true, error_code := none, error_message := none,
              data := payment_data, metadata := md }

/-- The `except Exception` handler of `parse_payment_screenshot`: any
exception escaping the remainder of the try block (after
`model_cost_tier` and `image_hash` are bound) is converted into a
`service_error` envelope carrying the raw message. -/
def handleServiceError (provider_name model_id model_cost_tier image_hash : String) :
    Except PyErr ParsePaymentResponse → Except PyErr ParsePaymentResponse
  | .ok r => .ok r
  | .error e =>
      errorResponse "service_error" ("Unexpected error: " ++ e.msg)
        provider_name model_id model_cost_tier image_hash

/-- One invocation's outcome: the returned envelope (or the exception
that escaped to the caller), the quota state afterwards, the
provider's `_model_id` afterwards, and the ghost list of models that
were actually sent generation requests. -/
structure RunResult where
  result : Except PyErr ParsePaymentResponse
  quota : QuotaState
  modelId : String
  attempts : List String

/-- `PaymentParserService.parse_payment_screenshot`
(`services/payment_parser.py`), over a `GoogleAIStudioProvider` whose
`_model_id` at entry is `st0`.  `provider_name` and `model_id` are
bound before the try block can fail; `image_hash` and
`model_cost_tier` are bound only *after* the image-hash computation,
so if `base64.b64decode` raises inside `generate_image_hash`, the
`except` handler's own reference to `model_cost_tier` (the first
still-unbound argument of `_error_response`) raises
`UnboundLocalError`, which escapes to the caller.  After those
bindings, the steps are: kill switch, guardrails, image validation,
quota increment, provider call, then `processAiResult`, all wrapped by
the `service_error` handler. -/
def parse_payment_screenshot (cfg : Config) (env : Env) (st0 : String)
    (quota0 : QuotaState) (image_base64 : String) (match_date : Option String) :
    RunResult :=
  let provider_name := "google_ai_studio"
  let model_id := st0
  match generate_image_hash env image_base64 with
  | .error _ =>
      { result := .error (.unboundLocalError "model_cost_tier"),
        quota := quota0, modelId := st0, attempts := [] }
  | .ok (image_hash, _image_bytes) =>
      let model_cost_tier := if is_model_allowed st0 then "free" else "paid"
      if !cfg.aiServiceEnabled then
        { result := handleServiceError provider_name model_id model_cost_tier image_hash
            (errorResponse "service_disabled" "AI service is disabled"
              provider_name model_id model_cost_tier image_hash),
          quota := quota0, modelId := st0, attempts := [] }
      else
        match should_block_request cfg env.today quota0 model_id with
        | (true, block_reason) =>
            { result := handleServiceError provider_name model_id model_cost_tier image_hash
                (errorResponse (block_reason.getD "None")
                  ("Request blocked: " ++ block_reason.getD "None")
                  provider_name model_id model_cost_tier image_hash),
              quota := quota0, modelId := st0, attempts := [] }
        | (false, _) =>
            match ImageValidator.validate env image_base64 with
            | (is_valid, validation_error) =>
              if !is_valid then
                { result := handleServiceError provider_name model_id model_cost_tier image_hash
                    (errorResponse "invalid_image" (validation_error.getD "None")
                      provider_name model_id model_cost_tier image_hash),
                  quota := quota0, modelId := st0, attempts := [] }
              else
                { result := handleServiceError provider_name model_id model_cost_tier image_hash
                    (processAiResult cfg env provider_name model_id
                      model_cost_tier image_hash match_date
                      (parse_payment_image env st0 image_base64).dict),
                  quota := increment_request_count env.today quota0,
                  modelId := (parse_payment_image env st0 image_base64).modelId,
                  attempts := (parse_payment_image env st0 image_base64).attempts }
/-- The exception a modelled computation raised, when it raised one
(projection used in theorem statements, since dict values carry no
decidable equality). -/
def raised? {A : Type} : Except PyErr A → Option PyErr
  | .error e => some e
  | .ok _ => none

/-!  ## Concrete scenarios

Concrete configurations and capability environments used to witness
the theorems and exhibit counterexamples.  `cfgDefault` carries the
source defaults (enabled, daily limit 500, confidence threshold 0.7);
`quotaFresh` is a counter already on today's date with zero requests.
Each `env...` stubs the provider and libraries for one scenario. -/

def cfgDefault : Config := ⟨true, 500, mkRat 7 10⟩

def quotaFresh : QuotaState := ⟨"2024-06-01", 0⟩

/-- Baseline capability stub: tiny valid image, every generation call
fails (network down). -/
def envBase : Env :=
  { b64decode := fun _ => .ok [1, 2, 3],
    inspectImage := fun _ => .ok ⟨"PNG", 200, 400⟩,
    sha256hex := fun _ => "hash0",
    gen := fun _ => .error "gen-down",
    jsonLoads := fun _ => .error "Expecting value",
    fuzzy := fun _ => none,
    today := "2024-06-01" }

/-- C1 scenario: the requested default model fails, the second
candidate answers with a clean payment JSON. -/
def envC1 : Env :=
  { envBase with
    gen := fun m => if m == "gemini-2.0-flash-exp" then .ok "R1" else .error "boom",
    jsonLoads := fun t =>
      if t == "R1" then
        .ok (.obj [("is_payment_screenshot", .bool true), ("amount", .num 500),
                   ("confidence", .num (mkRat 9 10))])
      else .error "Expecting value" }

def runC1 : RunResult :=
  parse_payment_screenshot cfgDefault envC1 "gemma-3-27b-it" quotaFresh "img" none

/-- The envelope `runC1` returns. -/
def respC1 : ParsePaymentResponse :=
  { success := true, error_code := none, error_message := none,
    data := ⟨500, "INR", "", "", "", "", "unknown", "", "unknown", ""⟩,
    metadata := ⟨mkRat 9 10, true, 0, "google_ai_studio", "gemma-3-27b-it", "free",
      "hash0", false, none⟩ }

/-- C2 scenario: first candidate answers with amount −5 (amount
trigger) and a payment date before the supplied match date (date
trigger), at high confidence. -/
def envC2 : Env :=
  { envBase with
    gen := fun m => if m == "gemma-3-27b-it" then .ok "R2" else .error "boom",
    jsonLoads := fun t =>
      if t == "R2" then
        .ok (.obj [("is_payment_screenshot", .bool true), ("amount", .num (-5)),
                   ("date", .str "2024-01-10"), ("confidence", .num (mkRat 9 10))])
      else .error "Expecting value" }

def runC2 : RunResult :=
  parse_payment_screenshot cfgDefault envC2 "gemma-3-27b-it" quotaFresh "img"
    (some "2024-01-15")

/-- C3 scenario: the base64 payload cannot be decoded at all
(`base64.b64decode("abc")` raises an invalid-padding `binascii.Error`
— three data characters). -/
def envC3 : Env :=
  { envBase with
    b64decode := fun _ => .error "Invalid base64-encoded string: invalid padding" }

def runC3 : RunResult :=
  parse_payment_screenshot cfgDefault envC3 "gemma-3-27b-it" quotaFresh "abc" none

/-- C4 counterexample `json.loads` stub: the text decodes to a JSON
object whose `confidence` is the non-numeric string `"abc"`. -/
def jsonLoadsC4 : String → Except String JVal :=
  fun t => if t == "R4" then .ok (.obj [("confidence", .str "abc")])
    else .error "Expecting value"

/-- C4 witness `json.loads` stub: an empty JSON object — every
expected field absent. -/
def jsonLoadsC4w : String → Except String JVal :=
  fun t => if t == "R4w" then .ok (.obj []) else .error "Expecting value"

/-- C5 witness scenario: every candidate fails, so the orchestrator
returns the `ai_failed` envelope. -/
def runC5 : RunResult :=
  parse_payment_screenshot cfgDefault envBase "gemma-3-27b-it" quotaFresh "img" none

/-- The envelope `runC5` returns. -/
def respC5 : ParsePaymentResponse :=
  { success := false, error_code := some "ai_failed",
    error_message := some "AI processing failed: All models failed. Last error: gen-down",
    data := PaymentData.default,
    metadata := ⟨0, false, 0, "google_ai_studio", "gemma-3-27b-it", "free",
      "hash0", true, some "ai_uncertain"⟩ }

/-- C6 witness scenario: all generations fail, so every whitelisted
candidate is attempted. -/
def runC6 : LoopResult := parse_payment_image envBase "gemma-3-27b-it" "img"

/-- C7 witness configuration: service disabled. -/
def cfgDisabled : Config := ⟨false, 500, mkRat 7 10⟩

/-- C8 scenario: the decoded payload is 10 MiB + 1 byte. -/
def envC8 : Env :=
  { envBase with b64decode := fun _ => .ok (List.replicate (10 * 1024 * 1024 + 1) 0) }

def runC8 : RunResult :=
  parse_payment_screenshot cfgDefault envC8 "gemma-3-27b-it" quotaFresh "img" none

/-- C9 witness fuzzy stub (never consulted on ISO-shaped inputs). -/
def fuzzyNone : String → Option PyDate := fun _ => none

/-- C10 scenario: the provider answers with confidence 1.5, outside
the schema's [0, 1] range. -/
def envC10 : Env :=
  { envBase with
    gen := fun m => if m == "gemma-3-27b-it" then .ok "R10" else .error "boom",
    jsonLoads := fun t =>
      if t == "R10" then
        .ok (.obj [("is_payment_screenshot", .bool true), ("amount", .num 500),
                   ("confidence", .num (mkRat 3 2))])
      else .error "Expecting value" }

def runC10 : RunResult :=
  parse_payment_screenshot cfgDefault envC10 "gemma-3-27b-it" quotaFresh "img" none

/-!  ## Helper lemmas  -/

/-- `validate_payment_date` only ever returns the deferral pair or the
mismatch pair. -/
theorem validate_payment_date_cases (fuzzy : String → Option PyDate)
    (p m : String) :
    validate_payment_date fuzzy p m = (true, none) ∨
    validate_payment_date fuzzy p m = (false, some "date_mismatch") := by
  unfold validate_payment_date
  split
  · exact Or.inl rfl
  · split
    · exact Or.inl rfl
    · split
      · exact Or.inl rfl
      · exact Or.inl rfl
      · split
        · exact Or.inr rfl
        · exact Or.inl rfl

/-- The review-trigger computation sets the flag exactly when it sets a
reason. -/
theorem computeReviewFlags_flag_iff_reason (fuzzy : String → Option PyDate)
    (th : Rat) (pd : PaymentData) (md : Option String) (c : Rat) :
    (computeReviewFlags fuzzy th pd md c).1 =
      ((computeReviewFlags fuzzy th pd md c).2).isSome := by
  unfold computeReviewFlags
  rcases md with _ | m
  · dsimp only
    split <;> split <;> simp
  · dsimp only
    rcases validate_payment_date_cases fuzzy pd.date m with h | h <;>
      rw [h] <;> dsimp only <;> split <;> split <;> simp_all <;> split <;> simp

/-- A successful validated metadata construction returns exactly its
arguments. -/
theorem mkResponseMetadata_ok {c : Rat} {ip : Bool} {t : Int}
    {pv mo tier h : String} {rr : Bool} {orr : Option String}
    {md : ResponseMetadata}
    (hok : mkResponseMetadata c ip t pv mo tier h rr orr = .ok md) :
    md = ⟨c, ip, t, pv, mo, tier, h, rr, orr⟩ := by
  unfold mkResponseMetadata at hok
  split at hok
  · exact absurd hok (by simp)
  · split at hok
    · exact absurd hok (by simp)
    · exact (Except.ok.inj hok).symm

/-- The three envelope invariants of the spec, §3/§8. -/
def EnvelopeInv (resp : ParsePaymentResponse) : Prop :=
  (resp.success = true ↔ resp.error_code = none) ∧
  (resp.metadata.requires_review = true ↔ resp.metadata.review_reason ≠ none) ∧
  (resp.success = false → resp.metadata.requires_review = true)

/-- Shape of every envelope `_error_response` produces. -/
theorem errorResponse_ok {ec em pv mo tier h : String}
    {resp : ParsePaymentResponse}
    (hok : errorResponse ec em pv mo tier h = .ok resp) :
    resp.success = false ∧ resp.error_code = some ec ∧
    resp.metadata.requires_review = true ∧
    resp.metadata.review_reason =
      some ((errorToReviewReason.lookup ec).getD "service_error") ∧
    resp.metadata.provider = pv ∧ resp.metadata.model = mo ∧
    resp.metadata.model_cost_tier = tier ∧ resp.metadata.confidence = 0 := by
  unfold errorResponse at hok
  dsimp only at hok
  split at hok
  · exact absurd hok (by simp)
  · rename_i md hmd
    have hmd2 := mkResponseMetadata_ok hmd
    have hr := (Except.ok.inj hok).symm
    subst hr; subst hmd2
    exact ⟨rfl, rfl, rfl, rfl, rfl, rfl, rfl, rfl⟩

/-- Every envelope `_error_response` produces satisfies the invariants
and reports the given provider/model/tier. -/
theorem errorResponse_ok_inv {ec em pv mo tier h : String}
    {resp : ParsePaymentResponse}
    (hok : errorResponse ec em pv mo tier h = .ok resp) :
    EnvelopeInv resp ∧ resp.metadata.provider = pv ∧
    resp.metadata.model = mo ∧ resp.metadata.model_cost_tier = tier := by
  obtain ⟨h1, h2, h3, h4, h5, h6, h7, _⟩ := errorResponse_ok hok
  refine ⟨⟨?_, ?_, ?_⟩, h5, h6, h7⟩
  · rw [h1, h2]; simp
  · rw [h3, h4]; simp
  · intro _; exact h3

/-- Every envelope `processAiResult` produces satisfies the invariants
and reports the given provider/model/tier. -/
theorem processAiResult_ok_inv {cfg : Config} {env : Env}
    {pv mo tier h : String} {md : Option String} {d : List (String × JVal)}
    {resp : ParsePaymentResponse}
    (hok : processAiResult cfg env pv mo tier h md d = .ok resp) :
    EnvelopeInv resp ∧ resp.metadata.provider = pv ∧
    resp.metadata.model = mo ∧ resp.metadata.model_cost_tier = tier := by
  unfold processAiResult at hok
  split at hok
  · exact errorResponse_ok_inv hok
  · split at hok
    · -- not a payment screenshot
      split at hok
      · exact absurd hok (by simp)
      · rename_i md' hmd
        have hmd2 := mkResponseMetadata_ok hmd
        subst hmd2
        have hr := (Except.ok.inj hok).symm
        subst hr
        exact ⟨⟨by simp, by simp, fun _ => rfl⟩, rfl, rfl, rfl⟩
    · -- success path
      split at hok
      · exact absurd hok (by simp)
      · split at hok
        · exact absurd hok (by simp)
        · split at hok
          · exact absurd hok (by simp)
          · split at hok
            · exact absurd hok (by simp)
            · rename_i confidence hconf
              dsimp only at hok
              split at hok
              · exact absurd hok (by simp)
              · rename_i md' hmd
                have hmd2 := mkResponseMetadata_ok hmd
                subst hmd2
                have hr := (Except.ok.inj hok).symm
                subst hr
                refine ⟨⟨by simp, ?_, by simp⟩, rfl, rfl, rfl⟩
                simp only
                rw [computeReviewFlags_flag_iff_reason]
                exact ⟨fun hs => Option.isSome_iff_ne_none.mp hs,
                  fun hn => Option.isSome_iff_ne_none.mpr hn⟩

/-- Whatever the try block produced, the `except` handler yields an
envelope satisfying the invariants with the given provider/model/tier,
or re-propagates nothing (the handler itself cannot fail: its metadata
arguments are the bound locals and a constant-valid reason). -/
theorem handleServiceError_ok_inv
    {pv mo tier h : String} {x : Except PyErr ParsePaymentResponse}
    {resp : ParsePaymentResponse}
    (hx : ∀ r, x = Except.ok r → EnvelopeInv r ∧ r.metadata.provider = pv ∧
      r.metadata.model = mo ∧ r.metadata.model_cost_tier = tier)
    (hok : handleServiceError pv mo tier h x = .ok resp) :
    EnvelopeInv resp ∧ resp.metadata.provider = pv ∧
    resp.metadata.model = mo ∧ resp.metadata.model_cost_tier = tier := by
  unfold handleServiceError at hok
  split at hok
  · rename_i r
    exact (Except.ok.inj hok) ▸ hx r rfl
  · exact errorResponse_ok_inv hok

/-- Every envelope `parse_payment_screenshot` actually returns (as
opposed to an escaped exception) satisfies the three invariants, and
its metadata always reports the provider name, the *originally
requested* model id `st0` (captured before the provider call), and the
cost tier computed from that original id. -/
theorem parse_payment_screenshot_ok_inv {cfg : Config} {env : Env}
    {st0 : String} {q0 : QuotaState} {img : String} {md : Option String}
    {resp : ParsePaymentResponse}
    (hok : (parse_payment_screenshot cfg env st0 q0 img md).result = .ok resp) :
    EnvelopeInv resp ∧ resp.metadata.provider = "google_ai_studio" ∧
    resp.metadata.model = st0 ∧
    resp.metadata.model_cost_tier =
      (if is_model_allowed st0 then "free" else "paid") := by
  unfold parse_payment_screenshot at hok
  dsimp only at hok
  split at hok
  · exact absurd hok (by simp)
  · split at hok
    · dsimp only at hok
      exact handleServiceError_ok_inv (fun r hr => errorResponse_ok_inv hr) hok
    · split at hok
      · dsimp only at hok
        exact handleServiceError_ok_inv (fun r hr => errorResponse_ok_inv hr) hok
      · split at hok
        · dsimp only at hok
          exact handleServiceError_ok_inv (fun r hr => errorResponse_ok_inv hr) hok
        · dsimp only at hok
          exact handleServiceError_ok_inv (fun r hr => processAiResult_ok_inv hr) hok

/-- Every model the loop actually sends a generation request to is
whitelisted, provided the accumulator only holds whitelisted ids. -/
theorem tryModels_attempts_allowed (env : Env) :
    ∀ (ms : List String) (mid : String) (le : Option String) (acc : List String),
      (∀ x ∈ acc, is_model_allowed x = true) →
      ∀ m, m ∈ (tryModels env ms mid le acc).attempts → is_model_allowed m = true := by
  intro ms
  induction ms with
  | nil =>
      intro mid le acc hacc m hm
      unfold tryModels at hm
      exact hacc m (List.mem_reverse.mp hm)
  | cons hd tl ih =>
      intro mid le acc hacc m
      unfold tryModels
      by_cases hall : is_model_allowed hd
      · rw [hall]
        simp only [Bool.not_true, Bool.false_eq_true, if_false]
        have hacc2 : ∀ x ∈ hd :: acc, is_model_allowed x = true := by
          intro x hx
          rcases List.mem_cons.mp hx with rfl | hx
          · exact hall
          · exact hacc x hx
        split
        · exact ih hd _ (hd :: acc) hacc2 m
        · split
          · intro hm
            rcases List.mem_cons.mp (List.mem_reverse.mp hm) with rfl | hx
            · exact hall
            · exact hacc m hx
          · exact ih hd _ (hd :: acc) hacc2 m
      · rw [Bool.eq_false_iff.mpr hall]
        simp only [Bool.not_false, if_true]
        exact ih mid le acc hacc m

/-- When the loop returned some candidate's parsed answer, the
adapter's `_model_id` afterwards is exactly that candidate, and that
candidate was one of the attempted models. -/
theorem tryModels_answeredBy (env : Env) :
    ∀ (ms : List String) (mid : String) (le : Option String) (acc : List String)
      (m : String), (tryModels env ms mid le acc).answeredBy = some m →
      (tryModels env ms mid le acc).modelId = m ∧
      m ∈ (tryModels env ms mid le acc).attempts := by
  intro ms
  induction ms with
  | nil =>
      intro mid le acc m ha
      unfold tryModels at ha
      exact absurd ha (by simp)
  | cons hd tl ih =>
      intro mid le acc m
      unfold tryModels
      by_cases hall : is_model_allowed hd
      · rw [hall]
        simp only [Bool.not_true, Bool.false_eq_true, if_false]
        split
        · exact ih hd _ (hd :: acc) m
        · split
          · intro ha
            obtain rfl := Option.some.inj ha
            exact ⟨rfl, by simp⟩
          · exact ih hd _ (hd :: acc) m
      · rw [Bool.eq_false_iff.mpr hall]
        simp only [Bool.not_false, if_true]
        exact ih mid le acc m

/-- Adapter-level: every model `parse_payment_image` sends a request
to is whitelisted. -/
theorem parse_payment_image_attempts_allowed (env : Env) (st img : String) :
    ∀ m ∈ (parse_payment_image env st img).attempts, is_model_allowed m = true := by
  intro m
  unfold parse_payment_image
  split
  · intro hm; exact absurd hm (by simp)
  · exact tryModels_attempts_allowed env (modelsToTry st) st none [] (by simp) m

/-- Adapter-level: on a successful fallback, the adapter's final
`_model_id` is the candidate that answered, and it was attempted and
whitelisted. -/
theorem parse_payment_image_answeredBy (env : Env) (st img : String) (m : String) :
    (parse_payment_image env st img).answeredBy = some m →
    (parse_payment_image env st img).modelId = m ∧
    m ∈ (parse_payment_image env st img).attempts ∧
    is_model_allowed m = true := by
  unfold parse_payment_image
  split
  · intro ha; exact absurd ha (by simp)
  · intro ha
    obtain ⟨h1, h2⟩ := tryModels_answeredBy env (modelsToTry st) st none [] m ha
    exact ⟨h1, h2, tryModels_attempts_allowed env (modelsToTry st) st none []
      (by simp) m h2⟩

/-!  ## Claim theorems  -/

/-- C9: `validate_payment_date` returns `(true, none)` whenever either
argument is empty or fails to parse; when both parse, validity is
`payment_date >= match_date` with reason `"date_mismatch"` exactly on
failure; and the three concrete examples hold for every fuzzy parser.
(The function is modelled as a total Lean function because the source
catches every parse exception, so it never raises.) -/
theorem C9_validate_payment_date_spec :
    (∀ (fuzzy : String → Option PyDate) (m : String),
        validate_payment_date fuzzy "" m = (true, none)) ∧
    (∀ (fuzzy : String → Option PyDate) (p : String),
        validate_payment_date fuzzy p "" = (true, none)) ∧
    (∀ (fuzzy : String → Option PyDate) (p m : String),
        p ≠ "" → m ≠ "" → parse_date fuzzy p = none →
        validate_payment_date fuzzy p m = (true, none)) ∧
    (∀ (fuzzy : String → Option PyDate) (p m : String),
        p ≠ "" → m ≠ "" → parse_date fuzzy m = none →
        validate_payment_date fuzzy p m = (true, none)) ∧
    (∀ (fuzzy : String → Option PyDate) (p m : String) (dp dm : PyDate),
        p ≠ "" → m ≠ "" →
        parse_date fuzzy p = some dp → parse_date fuzzy m = some dm →
        validate_payment_date fuzzy p m =
          (!(dp.lt dm), if dp.lt dm then some "date_mismatch" else none)) ∧
    (∀ fuzzy : String → Option PyDate,
        validate_payment_date fuzzy "2024-01-10" "2024-01-15" =
          (false, some "date_mismatch")) ∧
    (∀ fuzzy : String → Option PyDate,
        validate_payment_date fuzzy "2024-01-20" "2024-01-15" = (true, none)) ∧
    (∀ fuzzy : String → Option PyDate,
        validate_payment_date fuzzy "" "2024-01-15" = (true, none)) := by
  refine ⟨fun fuzzy m => rfl, ?_, ?_, ?_, ?_, fun fuzzy => rfl, fun fuzzy => rfl,
    fun fuzzy => rfl⟩
  · intro fuzzy p
    unfold validate_payment_date
    split
    · rfl
    · simp
  · intro fuzzy p m hp hm hpd
    simp [validate_payment_date, hp, hm, hpd]
  · intro fuzzy p m hp hm hmd
    rcases hpd : parse_date fuzzy p with _ | dp <;>
      simp [validate_payment_date, hp, hm, hpd, hmd]
  · intro fuzzy p m dp dm hp hm hpd hmd
    by_cases hlt : dp.lt dm = true <;>
      simp [validate_payment_date, hp, hm, hpd, hmd, hlt]

/-- C9 witness: the general both-parse clause instantiated at concrete
ISO dates. -/
theorem C9_validate_payment_date_spec_witness :
    (parse_date fuzzyNone "2024-03-05" = some ⟨2024, 3, 5⟩) ∧
    (parse_date fuzzyNone "2024-03-01" = some ⟨2024, 3, 1⟩) ∧
    validate_payment_date fuzzyNone "2024-03-05" "2024-03-01" =
      (!(PyDate.lt ⟨2024, 3, 5⟩ ⟨2024, 3, 1⟩),
       if PyDate.lt ⟨2024, 3, 5⟩ ⟨2024, 3, 1⟩ then some "date_mismatch" else none) :=
  ⟨by decide, by decide,
   C9_validate_payment_date_spec.2.2.2.2.1 fuzzyNone "2024-03-05" "2024-03-01"
     ⟨2024, 3, 5⟩ ⟨2024, 3, 1⟩ (by decide) (by decide) (by decide) (by decide)⟩

/-- C7: the guardrail evaluation checks enabled flag, then whitelist,
then daily limit, short-circuiting on the first failure; in
particular, with the service disabled the result is
`"service_disabled"` for *every* model id, whitelisted or not. -/
theorem C7_guardrail_order :
    (∀ (cfg : Config) (today : String) (q : QuotaState) (m : String),
        cfg.aiServiceEnabled = false →
        should_block_request cfg today q m = (true, some "service_disabled")) ∧
    (∀ (cfg : Config) (today : String) (q : QuotaState) (m : String),
        cfg.aiServiceEnabled = true → is_model_allowed m = false →
        should_block_request cfg today q m = (true, some "model_not_free")) ∧
    (∀ (cfg : Config) (today : String) (q : QuotaState) (m : String),
        cfg.aiServiceEnabled = true → is_model_allowed m = true →
        is_within_daily_limit cfg today q = false →
        should_block_request cfg today q m = (true, some "daily_limit_exceeded")) ∧
    (∀ (cfg : Config) (today : String) (q : QuotaState) (m : String),
        cfg.aiServiceEnabled = true → is_model_allowed m = true →
        is_within_daily_limit cfg today q = true →
        should_block_request cfg today q m = (false, none)) := by
  refine ⟨?_, ?_, ?_, ?_⟩ <;> intro cfg today q m
  · intro h1; simp [should_block_request, h1]
  · intro h1 h2; simp [should_block_request, h1, h2]
  · intro h1 h2 h3; simp [should_block_request, h1, h2, h3]
  · intro h1 h2 h3; simp [should_block_request, h1, h2, h3]

/-- C7 witness: service disabled and a non-whitelisted model
simultaneously — the first check wins. -/
theorem C7_guardrail_order_witness :
    (cfgDisabled.aiServiceEnabled = false) ∧
    (is_model_allowed "gpt-4" = false) ∧
    should_block_request cfgDisabled "2024-06-01" quotaFresh "gpt-4" =
      (true, some "service_disabled") :=
  ⟨rfl, by decide,
   C7_guardrail_order.1 cfgDisabled "2024-06-01" quotaFresh "gpt-4" rfl⟩

/-- C6: every execution of the adapter's fallback loop only ever sends
generation requests to whitelisted model identifiers — every
candidate, the originally requested one included, is checked against
`is_model_allowed` and skipped when not a member. -/
theorem C6_no_disallowed_request :
    ∀ (env : Env) (st img m : String),
      m ∈ (parse_payment_image env st img).attempts →
      is_model_allowed m = true := by
  intro env st img m hm
  exact parse_payment_image_attempts_allowed env st img m hm

/-- C6 witness: in the all-fail scenario every whitelisted candidate is
attempted; the last one is attempted and indeed whitelisted. -/
theorem C6_no_disallowed_request_witness :
    ("gemini-1.5-pro" ∈ runC6.attempts) ∧ is_model_allowed "gemini-1.5-pro" = true :=
  ⟨by decide,
   C6_no_disallowed_request envBase "gemma-3-27b-it" "img" "gemini-1.5-pro" (by decide)⟩

/-- C5: every envelope `parse_payment_screenshot` returns satisfies
`success=true ↔ error_code absent`, `requires_review=true ↔
review_reason present`, and `success=false → requires_review=true`. -/
theorem C5_envelope_invariants :
    ∀ (cfg : Config) (env : Env) (st0 : String) (q0 : QuotaState) (img : String)
      (md : Option String) (resp : ParsePaymentResponse),
      (parse_payment_screenshot cfg env st0 q0 img md).result = .ok resp →
      (resp.success = true ↔ resp.error_code = none) ∧
      (resp.metadata.requires_review = true ↔ resp.metadata.review_reason ≠ none) ∧
      (resp.success = false → resp.metadata.requires_review = true) := by
  intro cfg env st0 q0 img md resp hok
  exact (parse_payment_screenshot_ok_inv hok).1

/-- C5 witness: the all-candidates-fail run returns the `ai_failed`
envelope, which satisfies all three invariants. -/
theorem C5_envelope_invariants_witness :
    (runC5.result = .ok respC5) ∧
    ((respC5.success = true ↔ respC5.error_code = none) ∧
     (respC5.metadata.requires_review = true ↔ respC5.metadata.review_reason ≠ none) ∧
     (respC5.success = false → respC5.metadata.requires_review = true)) :=
  ⟨by decide,
   C5_envelope_invariants cfgDefault envBase "gemma-3-27b-it" quotaFresh "img" none
     respC5 (by decide)⟩

/-- C3: on an input whose base64 payload cannot be decoded (the claim
expects a `service_error` envelope), the modelled
`parse_payment_screenshot` does *not* return an envelope: the `except`
handler references the still-unbound local `model_cost_tier` and the
resulting `UnboundLocalError` escapes to the caller. -/
theorem C3_decode_failure_escapes :
    runC3.result = .error (.unboundLocalError "model_cost_tier") := by
  decide

/-- C1 counterexample: the requested default model fails, the second
candidate `"gemini-2.0-flash-exp"` answers (so the adapter's active
model and the attempt list show it), yet the returned envelope's
`model` metadata is the originally requested `"gemma-3-27b-it"` — not
the candidate that actually answered, refuting the claim. -/
theorem C1_counterexample :
    runC1.modelId = "gemini-2.0-flash-exp" ∧
    runC1.attempts = ["gemma-3-27b-it", "gemini-2.0-flash-exp"] ∧
    runC1.result.map (fun r => (r.metadata.model, r.metadata.model_cost_tier)) =
      .ok ("gemma-3-27b-it", "free") := by
  exact ⟨by decide, by decide, by decide⟩

/-- C1 amended: the adapter's *active model* (`_model_id`, what
`get_model_id` reports after the call) is updated to the candidate
that actually answered; but the envelope's `model` metadata and
`model_cost_tier` always reflect the originally requested model id,
captured by the orchestrator before the provider call. -/
theorem C1_amended :
    (∀ (env : Env) (st img m : String),
        (parse_payment_image env st img).answeredBy = some m →
        (parse_payment_image env st img).modelId = m) ∧
    (∀ (cfg : Config) (env : Env) (st0 : String) (q0 : QuotaState)
        (img : String) (md : Option String) (resp : ParsePaymentResponse),
        (parse_payment_screenshot cfg env st0 q0 img md).result = .ok resp →
        resp.metadata.model = st0 ∧
        resp.metadata.model_cost_tier =
          (if is_model_allowed st0 then "free" else "paid")) := by
  constructor
  · intro env st img m ha
    exact (parse_payment_image_answeredBy env st img m ha).1
  · intro cfg env st0 q0 img md resp hok
    obtain ⟨_, _, h3, h4⟩ := parse_payment_screenshot_ok_inv hok
    exact ⟨h3, h4⟩

/-- C1 amended, witnessed on the fallback scenario: the adapter ends
on the responder, while the envelope reports the original request. -/
theorem C1_amended_witness :
    ((parse_payment_image envC1 "gemma-3-27b-it" "img").answeredBy =
        some "gemini-2.0-flash-exp") ∧
    ((parse_payment_image envC1 "gemma-3-27b-it" "img").modelId =
        "gemini-2.0-flash-exp") ∧
    (runC1.result = .ok respC1) ∧
    respC1.metadata.model = "gemma-3-27b-it" ∧
    respC1.metadata.model_cost_tier =
      (if is_model_allowed "gemma-3-27b-it" then "free" else "paid") :=
  ⟨by decide,
   C1_amended.1 envC1 "gemma-3-27b-it" "img" "gemini-2.0-flash-exp" (by decide),
   by decide,
   (C1_amended.2 cfgDefault envC1 "gemma-3-27b-it" quotaFresh "img" none respC1
     (by decide)).1,
   (C1_amended.2 cfgDefault envC1 "gemma-3-27b-it" quotaFresh "img" none respC1
     (by decide)).2⟩

/-- C2 counterexample: amount −5 (≤ 0, so the amount trigger fires and
sets `"validation_failed"`) *and* the date check fails, at high
confidence — and the envelope's `review_reason` is `"date_mismatch"`,
not the `"validation_failed"` the claim requires. -/
theorem C2_counterexample :
    runC2.result.map
        (fun r => (r.success, r.data.amount, r.metadata.review_reason)) =
      .ok (true, -5, some "date_mismatch") ∧
    validate_payment_date envC2.fuzzy "2024-01-10" "2024-01-15" =
      (false, some "date_mismatch") := by
  exact ⟨by decide, by decide⟩

/-- C2 amended: the review triggers are evaluated in the order amount,
date, confidence, but the *date* check overwrites an already-set
amount reason; only the confidence check refrains from overwriting.
The effective priority of the reported reason is therefore date check
first, then amount check, then confidence check; in particular, when
both the amount and the date trigger fire, `review_reason` is
`"date_mismatch"`. -/
theorem C2_amended (fuzzy : String → Option PyDate) (th : Rat)
    (pd : PaymentData) (md : Option String) (c : Rat) :
    computeReviewFlags fuzzy th pd md c =
      (if (match md with
           | some m => ((m != "") && (pd.date != "")) &&
               !(validate_payment_date fuzzy pd.date m).1
           | none => false) then (true, some "date_mismatch")
       else if pd.amount ≤ 0 then (true, some "validation_failed")
       else if c < th then (true, some "low_confidence")
       else (false, none)) := by
  unfold computeReviewFlags
  rcases md with _ | m
  · dsimp only
    by_cases ha : pd.amount ≤ 0 <;> by_cases hc : c < th <;> simp [ha, hc]
  · dsimp only
    by_cases hme : (m != "" && pd.date != "") = true
    · rcases validate_payment_date_cases fuzzy pd.date m with h | h <;>
        rw [h] <;>
        by_cases ha : pd.amount ≤ 0 <;> by_cases hc : c < th <;>
        simp [hme, ha, hc]
    · by_cases ha : pd.amount ≤ 0 <;> by_cases hc : c < th <;>
        simp [Bool.eq_false_iff.mpr hme, ha, hc]

/-- `Except.bind` on a success, for unfolding do-notation. -/
theorem except_bind_ok {e a b : Type} (x : a) (f : a → Except e b) :
    (Except.ok x : Except e a) >>= f = f x := rfl

/-- JSON-syntax failure is converted into the returned error dict. -/
theorem parseAiResponse_syntax_failure {jl : String → Except String JVal}
    {t e : String} (he : jl (stripFences t) = .error e) :
    parseAiResponse jl t =
      .ok [("error", .str ("JSON parse error: " ++ e)),
           ("is_payment_screenshot", .bool false),
           ("confidence", .num 0),
           ("raw_response", .str t)] := by
  unfold parseAiResponse
  dsimp only
  rw [he]

/-- If the decoded value is a JSON object and the two `float(...)`
coercions succeed, `_parse_ai_response` raises nothing. -/
theorem parseAiResponse_ok_of_floats {jl : String → Except String JVal}
    {t : String} {fields : List (String × JVal)} {qc qa : Rat}
    (hjl : jl (stripFences t) = .ok (.obj fields))
    (hc : pyFloat (dget fields "confidence" (.num 0)) = .ok qc)
    (ha : pyFloat (dget fields "amount" (.num 0)) = .ok qa) :
    raised? (parseAiResponse jl t) = none := by
  unfold parseAiResponse
  dsimp only
  rw [hjl]
  simp only [jsonGet, except_bind_ok, hc, ha]
  rfl

/-- C4 counterexample: a JSON object whose `confidence` is the
non-numeric string `"abc"` decodes fine, yet `_parse_ai_response`
raises `ValueError` from `float("abc")` instead of defaulting the
field — refuting the never-throws claim. -/
theorem C4_counterexample :
    raised? (parseAiResponse jsonLoadsC4 "R4") =
      some (.valueError "could not convert string to float: abc") := by
  decide

/-- C4 amended: `_parse_ai_response` converts JSON-syntax failure into
a returned failure dict carrying the raw text, and never throws when
the expected numeric fields are absent (they are defaulted) or
coercible; but a present wrong-typed `confidence` or `amount` (e.g. a
non-numeric string) raises a conversion error, which only the caller's
fallback loop catches. -/
theorem C4_amended :
    (∀ (jl : String → Except String JVal) (t e : String),
        jl (stripFences t) = .error e →
        parseAiResponse jl t =
          .ok [("error", .str ("JSON parse error: " ++ e)),
               ("is_payment_screenshot", .bool false),
               ("confidence", .num 0),
               ("raw_response", .str t)]) ∧
    (∀ (jl : String → Except String JVal) (t : String)
        (fields : List (String × JVal)) (qc qa : Rat),
        jl (stripFences t) = .ok (.obj fields) →
        pyFloat (dget fields "confidence" (.num 0)) = .ok qc →
        pyFloat (dget fields "amount" (.num 0)) = .ok qa →
        raised? (parseAiResponse jl t) = none) ∧
    (∀ (jl : String → Except String JVal) (t : String)
        (fields : List (String × JVal)),
        jl (stripFences t) = .ok (.obj fields) →
        fields.lookup "confidence" = none →
        fields.lookup "amount" = none →
        raised? (parseAiResponse jl t) = none) := by
  refine ⟨?_, ?_, ?_⟩
  · intro jl t e he
    exact parseAiResponse_syntax_failure he
  · intro jl t fields qc qa hjl hc ha
    exact parseAiResponse_ok_of_floats hjl hc ha
  · intro jl t fields hjl hl1 hl2
    refine @parseAiResponse_ok_of_floats jl t fields 0 0 hjl ?_ ?_ <;>
      simp [dget, hl1, hl2, pyFloat]

/-- C4 amended, witnessed on an empty JSON object: both numeric fields
absent, both coercions default to 0, nothing is raised. -/
theorem C4_amended_witness :
    (jsonLoadsC4w (stripFences "R4w") = .ok (.obj [])) ∧
    raised? (parseAiResponse jsonLoadsC4w "R4w") = none :=
  ⟨by rfl, C4_amended.2.1 jsonLoadsC4w "R4w" [] 0 0 (by rfl) (by rfl) (by rfl)⟩

/-- A decoded payload longer than 10 MiB makes the validator's
megabyte measure exceed 10. -/
theorem size_mb_big {n : Nat} (h : 10 * 1024 * 1024 < n) :
    mkRat (n : Int) (1024 * 1024) > 10 := by
  rw [Rat.mkRat_eq_div, gt_iff_lt, lt_div_iff₀ (by norm_num)]
  have h2 : ((10 * 1024 * 1024 : Nat) : Rat) < (n : Rat) := by exact_mod_cast h
  push_cast at h2 ⊢
  linarith

/-- C8: when the decoded bytes exceed 10 MiB, validation rejects the
image with the size check (`env.inspectImage` — the PIL decode — is
universally quantified, so the verdict is independent of it: the size
check happens before any image decode), the envelope carries
`invalid_image`, no generation request is issued, and the quota
counter state is unchanged.  The service-enabled and guardrail
hypotheses place the request on the path that reaches image
validation. -/
theorem C8_oversized_image :
    ∀ (cfg : Config) (env : Env) (st0 : String) (q0 : QuotaState) (img : String)
      (md : Option String) (bytes : List Nat),
      cfg.aiServiceEnabled = true →
      should_block_request cfg env.today q0 st0 = (false, none) →
      env.b64decode (stripDataUrl img) = .ok bytes →
      10 * 1024 * 1024 < bytes.length →
      ImageValidator.validate env img = (false, some "Image too large (max 10MB)") ∧
      (parse_payment_screenshot cfg env st0 q0 img md).result.map
          (fun r => r.error_code) = .ok (some "invalid_image") ∧
      (parse_payment_screenshot cfg env st0 q0 img md).quota = q0 ∧
      (parse_payment_screenshot cfg env st0 q0 img md).attempts = [] := by
  intro cfg env st0 q0 img md bytes hen hsb hb hlen
  have hval : ImageValidator.validate env img =
      (false, some "Image too large (max 10MB)") := by
    unfold ImageValidator.validate
    rw [hb]
    dsimp only
    rw [if_pos (size_mb_big hlen)]
  have hgh : generate_image_hash env img = .ok (env.sha256hex bytes, bytes) := by
    unfold generate_image_hash
    rw [hb]
  refine ⟨hval, ?_⟩
  unfold parse_payment_screenshot
  rw [hgh]
  dsimp only
  rw [hen]
  simp only [Bool.not_true, Bool.false_eq_true, if_false]
  rw [hsb]
  dsimp only
  rw [hval]
  dsimp only
  exact ⟨rfl, rfl, rfl⟩

/-- C8 witness: a 10 MiB + 1 byte payload on the default
configuration. -/
theorem C8_oversized_image_witness :
    (cfgDefault.aiServiceEnabled = true) ∧
    (should_block_request cfgDefault envC8.today quotaFresh "gemma-3-27b-it" =
      (false, none)) ∧
    (envC8.b64decode (stripDataUrl "img") =
      .ok (List.replicate (10 * 1024 * 1024 + 1) 0)) ∧
    (10 * 1024 * 1024 < (List.replicate (10 * 1024 * 1024 + 1) (0 : Nat)).length) ∧
    (ImageValidator.validate envC8 "img" =
      (false, some "Image too large (max 10MB)") ∧
     runC8.result.map (fun r => r.error_code) = .ok (some "invalid_image") ∧
     runC8.quota = quotaFresh ∧
     runC8.attempts = []) :=
  ⟨rfl, by decide, rfl, by rw [List.length_replicate]; exact Nat.lt_succ_self _,
   C8_oversized_image cfgDefault envC8 "gemma-3-27b-it" quotaFresh "img" none
     (List.replicate (10 * 1024 * 1024 + 1) 0) rfl (by decide) rfl
     (by rw [List.length_replicate]; exact Nat.lt_succ_self _)⟩

/-- C10: when the provider's normalized result reaches the
success-envelope construction with a confidence outside [0, 1], the
schema's range constraint rejects the metadata, the exception is
caught by the orchestrator's handler, and the caller receives a
`service_error` envelope with confidence 0 and `requires_review=true`
— no clamping, no success. -/
theorem C10_out_of_range_confidence :
    ∀ (cfg : Config) (env : Env) (st0 : String) (q0 : QuotaState) (img : String)
      (md : Option String) (hash : String) (bytes : List Nat)
      (a q : Rat) (ts pm : String),
      cfg.aiServiceEnabled = true →
      should_block_request cfg env.today q0 st0 = (false, none) →
      generate_image_hash env img = .ok (hash, bytes) →
      ImageValidator.validate env img = (true, none) →
      (dictContains (parse_payment_image env st0 img).dict "error" &&
        (dget (parse_payment_image env st0 img).dict "error" .null).truthy) = false →
      (dget (parse_payment_image env st0 img).dict "is_payment_screenshot"
        (.bool false)).truthy = true →
      pyFloat (dget (parse_payment_image env st0 img).dict "amount" (.num 0)) = .ok a →
      normalizeStatus (dget (parse_payment_image env st0 img).dict
        "transaction_status" .null) = .ok ts →
      normalizePaymentMethod (dget (parse_payment_image env st0 img).dict
        "payment_method" .null) = .ok pm →
      pyFloat (dget (parse_payment_image env st0 img).dict "confidence" (.num 0)) =
        .ok q →
      (q < 0 ∨ 1 < q) →
      (parse_payment_screenshot cfg env st0 q0 img md).result.map
        (fun r => (r.success, r.error_code, r.metadata.confidence,
                   r.metadata.requires_review, r.metadata.review_reason)) =
        .ok (false, some "service_error", 0, true, some "service_error") := by
  intro cfg env st0 q0 img md hash bytes a q ts pm hen hsb hgh hval herr hisps ha
    hts hpm hq hrange
  unfold parse_payment_screenshot
  rw [hgh]
  dsimp only
  rw [hen]
  simp only [Bool.not_true, Bool.false_eq_true, if_false]
  rw [hsb]
  dsimp only
  rw [hval]
  dsimp only
  unfold processAiResult
  rw [herr]
  simp only [Bool.false_eq_true, if_false]
  rw [hisps]
  simp only [Bool.not_true, Bool.false_eq_true, if_false]
  rw [ha]
  dsimp only
  rw [hts]
  dsimp only
  rw [hpm]
  dsimp only
  rw [hq]
  dsimp only
  have hcond : (decide (q < 0) || decide (q > 1)) = true := by
    rcases hrange with h | h <;> simp [h]
  unfold mkResponseMetadata
  rw [if_pos hcond]
  rfl

/-- C10 witness: the provider answers with confidence 3/2; the
envelope comes back as `service_error`. -/
theorem C10_out_of_range_confidence_witness :
    (pyFloat (dget (parse_payment_image envC10 "gemma-3-27b-it" "img").dict
        "confidence" (.num 0)) = .ok (mkRat 3 2)) ∧
    (1 < mkRat 3 2) ∧
    runC10.result.map
        (fun r => (r.success, r.error_code, r.metadata.confidence,
                   r.metadata.requires_review, r.metadata.review_reason)) =
      .ok (false, some "service_error", 0, true, some "service_error") :=
  ⟨by decide, by decide,
   C10_out_of_range_confidence cfgDefault envC10 "gemma-3-27b-it" quotaFresh "img"
     none "hash0" [1, 2, 3] 500 (mkRat 3 2) "unknown" "unknown" rfl (by decide)
     (by decide) (by decide) (by decide) (by decide) (by decide) (by decide)
     (by decide) (by decide) (Or.inr (by decide))⟩
